import Mathlib

set_option maxRecDepth 4000
set_option linter.unusedVariables false

/-!
Shallow embedding of the PoliCard approval workflow (src/app.py).

The four SQLAlchemy models (`Usuario`, `Banco`, `Tarjeta`, `Solicitud`) become
Lean structures; the database session becomes an explicit `DB` record holding
the four tables as lists plus the auto-increment counters of each table.
Each Flask route handler that mutates state becomes a pure function
`DB → args → Except AppError DB`; an `Except.error` result models the request
ending without a commit (the route flashes a message and redirects, or the
transaction is rolled back), so the database is unchanged on error.

Timestamps (`datetime.utcnow()`) are modelled as a `Nat` argument `t` supplied
to each mutating operation.  `sanitizar_input` (a regex that strips script
tags) and `generate_password_hash` (the opaque one-way hasher, excluded by the
spec's scope) are modelled as abstract `String → String` parameters `san` and
`pwhash`; no claim depends on their behaviour.
-/

structure Usuario where
  id : Nat
  email : String
  password : String
  nombre : String
  tipo : String
  activo : Bool
  fecha_registro : Nat
  deriving DecidableEq, Repr

structure Banco where
  id : Nat
  usuario_id : Nat
  nombre_banco : String
  telefono : String
  sitio_web : String
  descripcion : String
  logo_url : Option String
  aprobado : Bool
  fecha_aprobacion : Option Nat
  deriving DecidableEq, Repr

structure Tarjeta where
  id : Nat
  nombre : String
  banco_id : Nat
  tipo : String
  cat : Rat
  anualidad : Rat
  edad_minima : Nat
  beneficios : String
  imagen_url : String
  aprobada : Bool
  fecha_creacion : Nat
  fecha_aprobacion : Option Nat
  deriving DecidableEq, Repr

structure Solicitud where
  id : Nat
  banco_id : Nat
  tipo_solicitud : String
  referencia_id : Nat
  estado : String
  comentario_admin : Option String
  fecha_solicitud : Nat
  fecha_respuesta : Option Nat
  deriving DecidableEq, Repr

/-- The database state: the four tables plus each table's auto-increment
counter (SQLAlchemy integer primary keys). -/
structure DB where
  usuarios : List Usuario
  bancos : List Banco
  tarjetas : List Tarjeta
  solicitudes : List Solicitud
  nextUsuarioId : Nat
  nextBancoId : Nat
  nextTarjetaId : Nat
  nextSolicitudId : Nat
  deriving DecidableEq, Repr

/-- Input of the `RegistroBancoForm` (already past WTForms field validation,
which is where the route logic in `registro_banco` starts). -/
structure RegistroInput where
  email : String
  password : String
  nombre_contacto : String
  nombre_banco : String
  telefono : String
  sitio_web : String
  descripcion : String
  deriving DecidableEq, Repr

/-- Input of the `TarjetaForm` as typed data (name, category, CAT, annual fee,
minimum age, benefits, image reference). -/
structure TarjetaInput where
  nombre : String
  tipo : String
  cat : Rat
  anualidad : Rat
  edad_minima : Nat
  beneficios : String
  imagen_url : String
  deriving DecidableEq, Repr

/-- Outcomes of a request handler that ends without committing anything:
duplicate registration email, `first_or_404` / `get_or_404` misses,
the unapproved-institution gate in `banco_nueva_tarjeta`, a form that
fails validation (the route re-renders the form without touching the DB),
and a flush that violates a NOT NULL constraint, which raises and rolls the
whole transaction back. -/
inductive AppError where
  | duplicateEmail
  | notFound
  | notApproved
  | invalidInput
  | integrityError
  deriving DecidableEq, Repr

/-- Validation performed by `TarjetaForm`: `nombre` is `DataRequired` (rejects
empty/whitespace strings), `tipo` must be one of the three non-empty choices,
`cat` and `anualidad` are `DataRequired` (which rejects the falsy value `0`)
plus `NumberRange(min=0)`, and `edad_minima` is `NumberRange(min=18, max=100)`. -/
def validTarjetaInput (input : TarjetaInput) : Bool :=
  input.nombre.toList.any (fun c => !c.isWhitespace) &&
  (input.tipo == "estudiante" || input.tipo == "joven" || input.tipo == "clasica") &&
  input.cat != 0 && decide (0 ≤ input.cat) &&
  input.anualidad != 0 && decide (0 ≤ input.anualidad) &&
  decide (18 ≤ input.edad_minima) && decide (input.edad_minima ≤ 100)

/-- The `Usuario` row inserted by `registro_banco` (role is always the literal
string "banco"). -/
def usuarioRegistrado (san pwhash : String → String) (s : DB) (input : RegistroInput)
    (t : Nat) : Usuario :=
  { id := s.nextUsuarioId, email := san input.email, password := pwhash input.password,
    nombre := san input.nombre_contacto, tipo := "banco", activo := true,
    fecha_registro := t }

/-- The `Banco` row inserted by `registro_banco` (`aprobado` defaults to false). -/
def bancoRegistrado (san : String → String) (s : DB) (input : RegistroInput) : Banco :=
  { id := s.nextBancoId, usuario_id := s.nextUsuarioId,
    nombre_banco := san input.nombre_banco, telefono := san input.telefono,
    sitio_web := san input.sitio_web, descripcion := san input.descripcion,
    logo_url := none, aprobado := false, fecha_aprobacion := none }

/-- The institution-request `Solicitud` row inserted by `registro_banco`
(kind "banco", referencing the new bank, status defaults to "pendiente"). -/
def solicitudRegistro (s : DB) (t : Nat) : Solicitud :=
  { id := s.nextSolicitudId, banco_id := s.nextBancoId, tipo_solicitud := "banco",
    referencia_id := s.nextBancoId, estado := "pendiente", comentario_admin := none,
    fecha_solicitud := t, fecha_respuesta := none }

/-- Route `registro_banco` (src/app.py lines 333-381): if the email already
belongs to a `Usuario`, flash an error and redirect without touching the
database; otherwise insert the `Usuario`, its `Banco`, and the pending
institution-request `Solicitud` and commit, all in one transaction. -/
def registro_banco (san pwhash : String → String) (s : DB) (input : RegistroInput)
    (t : Nat) : Except AppError DB :=
  if s.usuarios.any (fun u => u.email == input.email) then
    .error .duplicateEmail
  else
    .ok { s with
      usuarios := s.usuarios ++ [usuarioRegistrado san pwhash s input t],
      bancos := s.bancos ++ [bancoRegistrado san s input],
      solicitudes := s.solicitudes ++ [solicitudRegistro s t],
      nextUsuarioId := s.nextUsuarioId + 1, nextBancoId := s.nextBancoId + 1,
      nextSolicitudId := s.nextSolicitudId + 1 }

/-- The `Tarjeta` row inserted by `banco_nueva_tarjeta` (`aprobada` defaults
to false). -/
def nuevaTarjeta (san : String → String) (s : DB) (bancoId : Nat) (input : TarjetaInput)
    (t : Nat) : Tarjeta :=
  { id := s.nextTarjetaId, nombre := san input.nombre, banco_id := bancoId,
    tipo := input.tipo, cat := input.cat, anualidad := input.anualidad,
    edad_minima := input.edad_minima, beneficios := san input.beneficios,
    imagen_url := san input.imagen_url, aprobada := false, fecha_creacion := t,
    fecha_aprobacion := none }

/-- The card-request `Solicitud` row inserted by `banco_nueva_tarjeta` and
`banco_editar_tarjeta` (kind "tarjeta", referencing card `refId`, status
defaults to "pendiente"). -/
def nuevaSolicitudTarjeta (s : DB) (bancoId refId t : Nat) : Solicitud :=
  { id := s.nextSolicitudId, banco_id := bancoId, tipo_solicitud := "tarjeta",
    referencia_id := refId, estado := "pendiente", comentario_admin := none,
    fecha_solicitud := t, fecha_respuesta := none }

/-- The state committed by a successful `banco_nueva_tarjeta`: the new
unapproved card and its pending card-request, inserted together. -/
def nuevaResultado (san : String → String) (s : DB) (bancoId : Nat) (input : TarjetaInput)
    (t : Nat) : DB :=
  { s with
    tarjetas := s.tarjetas ++ [nuevaTarjeta san s bancoId input t],
    solicitudes := s.solicitudes ++
      [nuevaSolicitudTarjeta s bancoId (nuevaTarjeta san s bancoId input t).id t],
    nextTarjetaId := s.nextTarjetaId + 1, nextSolicitudId := s.nextSolicitudId + 1 }

/-- Route `banco_nueva_tarjeta` (src/app.py lines 551-595): the caller's bank
is resolved by the `banco_required` gate (modelled by the `bancoId` argument and
the lookup); if the bank is not approved, flash and redirect without creating
anything; otherwise, on valid form input, insert the `Tarjeta` (unapproved) and
its pending card-request `Solicitud` and commit in one transaction. -/
def banco_nueva_tarjeta (san : String → String) (s : DB) (bancoId : Nat)
    (input : TarjetaInput) (t : Nat) : Except AppError DB :=
  match s.bancos.find? (fun b => b.id == bancoId) with
  | none => .error .notFound
  | some banco =>
    if !banco.aprobado then
      .error .notApproved
    else if validTarjetaInput input then
      .ok (nuevaResultado san s bancoId input t)
    else .error .invalidInput

/-- The field overwrite performed by `banco_editar_tarjeta` on the owned card:
every mutable field is replaced and `aprobada` is forced to false
("Requiere nueva aprobación"). -/
def editedTarjeta (san : String → String) (input : TarjetaInput) (tj : Tarjeta) : Tarjeta :=
  { tj with
    nombre := san input.nombre, tipo := input.tipo, cat := input.cat,
    anualidad := input.anualidad, edad_minima := input.edad_minima,
    beneficios := san input.beneficios, imagen_url := san input.imagen_url,
    aprobada := false }

/-- The state committed by a successful `banco_editar_tarjeta`: the owned card
overwritten (and unapproved), plus a brand-new pending card-request appended
after all existing requests, which are left untouched. -/
def editResultado (san : String → String) (s : DB) (bancoId tarjetaId : Nat)
    (input : TarjetaInput) (t : Nat) : DB :=
  { s with
    tarjetas := s.tarjetas.map (fun tj =>
      if tj.id == tarjetaId && tj.banco_id == bancoId then editedTarjeta san input tj
      else tj),
    solicitudes := s.solicitudes ++ [nuevaSolicitudTarjeta s bancoId tarjetaId t],
    nextSolicitudId := s.nextSolicitudId + 1 }

/-- Route `banco_editar_tarjeta` (src/app.py lines 597-634): look the card up
by id *and* the caller's bank id (`first_or_404`, so a card of another bank is
a not-found); on valid input overwrite all fields, force `aprobada := false`,
and insert a brand-new pending card-request `Solicitud` (the old requests are
left untouched). -/
def banco_editar_tarjeta (san : String → String) (s : DB) (bancoId tarjetaId : Nat)
    (input : TarjetaInput) (t : Nat) : Except AppError DB :=
  match s.tarjetas.find? (fun tj => tj.id == tarjetaId && tj.banco_id == bancoId) with
  | none => .error .notFound
  | some _ =>
    if validTarjetaInput input then
      .ok (editResultado san s bancoId tarjetaId input t)
    else .error .invalidInput

/-- Route `banco_eliminar_tarjeta` (src/app.py lines 636-652): look the card up
by id and the caller's bank id, then hard-delete it.  No `Solicitud` row is
touched: the `Tarjeta` model declares no relationship to `Solicitud`. -/
def banco_eliminar_tarjeta (s : DB) (bancoId tarjetaId : Nat) : Except AppError DB :=
  match s.tarjetas.find? (fun tj => tj.id == tarjetaId && tj.banco_id == bancoId) with
  | none => .error .notFound
  | some _ =>
    .ok { s with
      tarjetas := s.tarjetas.filter (fun tj =>
        !(tj.id == tarjetaId && tj.banco_id == bancoId)) }

/-- The update `aprobar_solicitud` applies to the `Solicitud` table: the row
with the given id gets `estado := "aprobada"` and a response timestamp;
nothing checks the row's previous status. -/
def marcaAprobada (i t : Nat) (sol : Solicitud) : Solicitud :=
  if sol.id == i then { sol with estado := "aprobada", fecha_respuesta := some t }
  else sol

/-- The update `rechazar_solicitud` applies to the `Solicitud` table: the row
with the given id gets `estado := "rechazada"`, a response timestamp, and the
sanitized admin comment; nothing checks the row's previous status. -/
def marcaRechazada (san : String → String) (i t : Nat) (comentario : String)
    (sol : Solicitud) : Solicitud :=
  if sol.id == i then
    { sol with
      estado := "rechazada", fecha_respuesta := some t,
      comentario_admin := some (san comentario) }
  else sol

/-- The downstream effect of approving an institution-request: the referenced
`Banco` (if it exists) gets `aprobado := true` and an approval timestamp. -/
def apruebaBanco (refId t : Nat) (b : Banco) : Banco :=
  if b.id == refId then { b with aprobado := true, fecha_aprobacion := some t }
  else b

/-- The downstream effect of approving a card-request: the referenced `Tarjeta`
(if it exists) gets `aprobada := true` and an approval timestamp. -/
def apruebaTarjeta (refId t : Nat) (tj : Tarjeta) : Tarjeta :=
  if tj.id == refId then { tj with aprobada := true, fecha_aprobacion := some t }
  else tj

/-- Route `aprobar_solicitud` (src/app.py lines 445-471): `get_or_404` the
request, unconditionally set it to "aprobada" with a response timestamp, then
dereference the subject by tag+id; `Banco.query.get` / `Tarjeta.query.get`
returning `None` (subject deleted) silently skips the downstream flag update.
There is no check that the request was still pending. -/
def aprobar_solicitud (s : DB) (i t : Nat) : Except AppError DB :=
  match s.solicitudes.find? (fun sol => sol.id == i) with
  | none => .error .notFound
  | some sol =>
    if sol.tipo_solicitud == "banco" then
      .ok { s with
        solicitudes := s.solicitudes.map (marcaAprobada i t),
        bancos := s.bancos.map (apruebaBanco sol.referencia_id t) }
    else if sol.tipo_solicitud == "tarjeta" then
      .ok { s with
        solicitudes := s.solicitudes.map (marcaAprobada i t),
        tarjetas := s.tarjetas.map (apruebaTarjeta sol.referencia_id t) }
    else
      .ok { s with solicitudes := s.solicitudes.map (marcaAprobada i t) }

/-- Route `rechazar_solicitud` (src/app.py lines 473-489): `get_or_404` the
request, unconditionally set it to "rechazada" with a response timestamp and
the sanitized admin comment.  No downstream entity is mutated, and there is no
check that the request was still pending. -/
def rechazar_solicitud (san : String → String) (s : DB) (i t : Nat)
    (comentario : String) : Except AppError DB :=
  match s.solicitudes.find? (fun sol => sol.id == i) with
  | none => .error .notFound
  | some _ =>
    .ok { s with solicitudes := s.solicitudes.map (marcaRechazada san i t comentario) }

/-- Route `admin_solicitudes` (src/app.py lines 434-443): all requests in
state "pendiente", ordered by submission timestamp descending. -/
def admin_solicitudes (s : DB) : List Solicitud :=
  (s.solicitudes.filter (fun sol => sol.estado == "pendiente")).mergeSort
    (fun a b => decide (b.fecha_solicitud ≤ a.fecha_solicitud))

/-- Route `buscar` (src/app.py lines 195-218): the filtered catalog search,
`Tarjeta.edad_minima <= edad AND Tarjeta.tipo == tipo AND Tarjeta.aprobada`. -/
def buscar (s : DB) (edad : Nat) (tipo : String) : List Tarjeta :=
  s.tarjetas.filter (fun tj =>
    decide (tj.edad_minima ≤ edad) && tj.tipo == tipo && tj.aprobada)

/-- Deleting a `Banco`, following the relationship declarations on the models
(src/app.py lines 50-93).  No route in the repository deletes a bank; this
models what the declared ORM relations do on `session.delete(banco)`:
`Banco.tarjetas` carries `cascade='all, delete-orphan'`, so the bank's cards
are deleted with it, but the `Solicitud.banco` relationship declares no delete
cascade (default `save-update, merge`), so SQLAlchemy de-associates each
`Solicitud` child by setting its `banco_id` to NULL — and that column is
declared `nullable=False` (src/app.py line 85), so if any request references
the bank the flush raises an integrity error and the whole delete rolls back,
removing nothing.  Only a bank with no requests can actually be deleted, and
then no `Solicitud` row is touched. -/
def eliminar_banco (s : DB) (bancoId : Nat) : Except AppError DB :=
  if s.solicitudes.any (fun sol => sol.banco_id == bancoId) then
    .error .integrityError
  else
    .ok { s with
      bancos := s.bancos.filter (fun b => !(b.id == bancoId)),
      tarjetas := s.tarjetas.filter (fun tj => !(tj.banco_id == bancoId)) }

/-- The `admin_required` gate (src/app.py lines 150-161): the session's user
must exist and have `tipo == 'admin'`. -/
def admin_required (s : DB) (uid : Nat) : Bool :=
  match s.usuarios.find? (fun u => u.id == uid) with
  | some u => u.tipo == "admin"
  | none => false

/-- The administrator account seeded by `init_db` (src/app.py lines 666-686). -/
def adminSeed (pwhash : String → String) : Usuario :=
  { id := 1, email := "admin@policard.com", password := pwhash "AdminPoliCard2025!",
    nombre := "Administrador PoliCard", tipo := "admin", activo := true,
    fecha_registro := 0 }

/-- The freshly initialised database produced by `init_db`: only the seeded
administrator exists. -/
def initDB (pwhash : String → String) : DB :=
  { usuarios := [adminSeed pwhash], bancos := [], tarjetas := [], solicitudes := [],
    nextUsuarioId := 2, nextBancoId := 1, nextTarjetaId := 1, nextSolicitudId := 1 }

/-- One successful state transition by any of the workflow operations:
registration, card submission, card edit, card deletion, request approval,
request rejection. -/
inductive Step (san pwhash : String → String) : DB → DB → Prop where
  | registro (s : DB) (input : RegistroInput) (t : Nat) (s' : DB)
      (h : registro_banco san pwhash s input t = .ok s') : Step san pwhash s s'
  | nueva (s : DB) (bancoId : Nat) (input : TarjetaInput) (t : Nat) (s' : DB)
      (h : banco_nueva_tarjeta san s bancoId input t = .ok s') : Step san pwhash s s'
  | editar (s : DB) (bancoId tarjetaId : Nat) (input : TarjetaInput) (t : Nat) (s' : DB)
      (h : banco_editar_tarjeta san s bancoId tarjetaId input t = .ok s') :
      Step san pwhash s s'
  | eliminar (s : DB) (bancoId tarjetaId : Nat) (s' : DB)
      (h : banco_eliminar_tarjeta s bancoId tarjetaId = .ok s') : Step san pwhash s s'
  | aprobar (s : DB) (i t : Nat) (s' : DB)
      (h : aprobar_solicitud s i t = .ok s') : Step san pwhash s s'
  | rechazar (s : DB) (i t : Nat) (comentario : String) (s' : DB)
      (h : rechazar_solicitud san s i t comentario = .ok s') : Step san pwhash s s'

/-- States reachable from the initialised database by the workflow operations. -/
inductive Reachable (san pwhash : String → String) : DB → Prop where
  | init : Reachable san pwhash (initDB pwhash)
  | step {s s' : DB} (hr : Reachable san pwhash s) (hs : Step san pwhash s s') :
      Reachable san pwhash s'

/-- Like `Step`, but the resolution operations are only applied to requests
that are still pending — the discipline the admin UI follows (it only lists
pending requests), which the route handlers themselves do not enforce. -/
inductive StepP (san pwhash : String → String) : DB → DB → Prop where
  | registro (s : DB) (input : RegistroInput) (t : Nat) (s' : DB)
      (h : registro_banco san pwhash s input t = .ok s') : StepP san pwhash s s'
  | nueva (s : DB) (bancoId : Nat) (input : TarjetaInput) (t : Nat) (s' : DB)
      (h : banco_nueva_tarjeta san s bancoId input t = .ok s') : StepP san pwhash s s'
  | editar (s : DB) (bancoId tarjetaId : Nat) (input : TarjetaInput) (t : Nat) (s' : DB)
      (h : banco_editar_tarjeta san s bancoId tarjetaId input t = .ok s') :
      StepP san pwhash s s'
  | eliminar (s : DB) (bancoId tarjetaId : Nat) (s' : DB)
      (h : banco_eliminar_tarjeta s bancoId tarjetaId = .ok s') : StepP san pwhash s s'
  | aprobar (s : DB) (i t : Nat) (s' : DB)
      (hp : ∀ sol ∈ s.solicitudes, sol.id = i → sol.estado = "pendiente")
      (h : aprobar_solicitud s i t = .ok s') : StepP san pwhash s s'
  | rechazar (s : DB) (i t : Nat) (comentario : String) (s' : DB)
      (hp : ∀ sol ∈ s.solicitudes, sol.id = i → sol.estado = "pendiente")
      (h : rechazar_solicitud san s i t comentario = .ok s') : StepP san pwhash s s'

/-- States reachable when resolutions are only applied to pending requests. -/
inductive ReachableP (san pwhash : String → String) : DB → Prop where
  | init : ReachableP san pwhash (initDB pwhash)
  | step {s s' : DB} (hr : ReachableP san pwhash s) (hs : StepP san pwhash s s') :
      ReachableP san pwhash s'

/-- The card-requests referencing card `cardId` (kind "tarjeta"). -/
def cardRequests (s : DB) (cardId : Nat) : List Solicitud :=
  s.solicitudes.filter (fun sol =>
    sol.tipo_solicitud == "tarjeta" && sol.referencia_id == cardId)

/-- The most recent card-request for a card: the one inserted last, i.e. with
the largest id (ids are assigned in insertion order). -/
def latestCardRequest (s : DB) (cardId : Nat) : Option Solicitud :=
  (cardRequests s cardId).foldl
    (fun acc sol =>
      match acc with
      | none => some sol
      | some a => if a.id ≤ sol.id then some sol else some a)
    none

/-- The invariant claimed by the spec, verbatim: every card's `aprobada` flag
is true iff its most recent card-request is in status "aprobada" and no newer
card-request for the same card is in status "pendiente". -/
def checkCardInvariant (s : DB) : Bool :=
  s.tarjetas.all (fun tj =>
    tj.aprobada ==
      (match latestCardRequest s tj.id with
       | some sol =>
         sol.estado == "aprobada" &&
           (cardRequests s tj.id).all (fun s2 =>
             !(decide (sol.id < s2.id)) || s2.estado != "pendiente")
       | none => false))

/-- The invariant that does hold (under pending-only resolution): every
approved card has at least one card-request in status "aprobada". -/
def ApprovedCardHasApprovedRequest (s : DB) : Prop :=
  ∀ tj ∈ s.tarjetas, tj.aprobada = true →
    ∃ sol ∈ s.solicitudes, sol.tipo_solicitud = "tarjeta" ∧
      sol.referencia_id = tj.id ∧ sol.estado = "aprobada"

/-- Unwrap a successful operation result, falling back to `d` on error (only
used to name concrete states of example traces). -/
def okD (d : DB) : Except AppError DB → DB
  | .ok s => s
  | .error _ => d

def regInput0 : RegistroInput :=
  { email := "banco@x.com", password := "secreta", nombre_contacto := "Ana",
    nombre_banco := "Banco Uno", telefono := "555", sitio_web := "", descripcion := "" }

def tarInput0 : TarjetaInput :=
  { nombre := "Card A", tipo := "estudiante", cat := 1, anualidad := 1,
    edad_minima := 18, beneficios := "", imagen_url := "" }

def tarInput1 : TarjetaInput :=
  { nombre := "Card A2", tipo := "joven", cat := 2, anualidad := 3,
    edad_minima := 21, beneficios := "b", imagen_url := "i" }

/-- Concrete trace: fresh database (sanitizer and password hasher instantiated
with the identity function). -/
def dbInit : DB := initDB id

/-- After registering the institution "Banco Uno" at time 0. -/
def dbS1 : DB := okD dbInit (registro_banco id id dbInit regInput0 0)

/-- After the admin approves the institution-request (id 1) at time 1. -/
def dbS2 : DB := okD dbS1 (aprobar_solicitud dbS1 1 1)

/-- After the institution creates card "Card A" at time 2 (card id 1,
card-request id 2, pending). -/
def dbS3 : DB := okD dbS2 (banco_nueva_tarjeta id dbS2 1 tarInput0 2)

/-- After the institution edits card 1 at time 3 (card-request id 3, pending;
card-request id 2 is still pending as well). -/
def dbS4 : DB := okD dbS3 (banco_editar_tarjeta id dbS3 1 1 tarInput1 3)

/-- After the admin approves the *older* pending card-request (id 2) at time 4:
card 1 becomes approved although the newer card-request (id 3) is pending. -/
def dbS5 : DB := okD dbS4 (aprobar_solicitud dbS4 2 4)

/-- After deleting card 1 from `dbS4`: its pending card-requests remain. -/
def dbS6 : DB := okD dbS4 (banco_eliminar_tarjeta dbS4 1 1)

/-- After the admin rejects the institution-request (id 1) of `dbS1` at time 1. -/
def dbR2 : DB := okD dbS1 (rechazar_solicitud id dbS1 1 1 "no")

/-- After the admin then approves the already-rejected request (id 1) at
time 2: its status is overwritten and the bank becomes approved. -/
def dbR3 : DB := okD dbR2 (aprobar_solicitud dbR2 1 2)

/-- The administrator-uniqueness invariant: every identity with the admin role
is one of the identities seeded at initialisation. -/
def SoloAdminSembrado (pwhash : String → String) (s : DB) : Prop :=
  ∀ u ∈ s.usuarios, u.tipo = "admin" → u ∈ (initDB pwhash).usuarios

/-- The bank row of `dbS1` (registered, not yet approved). -/
def bancoW1 : Banco :=
  { id := 1, usuario_id := 2, nombre_banco := "Banco Uno", telefono := "555",
    sitio_web := "", descripcion := "", logo_url := none, aprobado := false,
    fecha_aprobacion := none }

/-- The bank row of `dbS2` (approved at time 1). -/
def bancoW2 : Banco := { bancoW1 with aprobado := true, fecha_aprobacion := some 1 }

/-- The card row of `dbS3` (freshly created, unapproved). -/
def tarjetaW3 : Tarjeta :=
  { id := 1, nombre := "Card A", banco_id := 1, tipo := "estudiante", cat := 1,
    anualidad := 1, edad_minima := 18, beneficios := "", imagen_url := "",
    aprobada := false, fecha_creacion := 2, fecha_aprobacion := none }

/-- The card row of `dbS4` (after the edit, unapproved again). -/
def tarjetaW4 : Tarjeta :=
  { id := 1, nombre := "Card A2", banco_id := 1, tipo := "joven", cat := 2,
    anualidad := 3, edad_minima := 21, beneficios := "b", imagen_url := "i",
    aprobada := false, fecha_creacion := 2, fecha_aprobacion := none }

/-- The card row of `dbS5` (approved at time 4). -/
def tarjetaW5 : Tarjeta := { tarjetaW4 with aprobada := true, fecha_aprobacion := some 4 }

/-- Card-request id 2 (created with the card, pending). -/
def solW2 : Solicitud :=
  { id := 2, banco_id := 1, tipo_solicitud := "tarjeta", referencia_id := 1,
    estado := "pendiente", comentario_admin := none, fecha_solicitud := 2,
    fecha_respuesta := none }

/-- Card-request id 3 (created by the edit, pending). -/
def solW3 : Solicitud :=
  { id := 3, banco_id := 1, tipo_solicitud := "tarjeta", referencia_id := 1,
    estado := "pendiente", comentario_admin := none, fecha_solicitud := 3,
    fecha_respuesta := none }

theorem listMapSelf {α : Type} {f : α → α} {l : List α} (h : ∀ x ∈ l, f x = x) :
    l.map f = l := by
  induction l with
  | nil => rfl
  | cons a l ih =>
    simp only [List.map_cons]
    rw [h a (List.mem_cons_self a l), ih (fun x hx => h x (List.mem_cons_of_mem a hx))]

theorem registro_banco_ok {san pwhash : String → String} {s : DB} {input : RegistroInput}
    {t : Nat} {s' : DB} (h : registro_banco san pwhash s input t = .ok s') :
    s'.usuarios = s.usuarios ++ [usuarioRegistrado san pwhash s input t] ∧
    s'.bancos = s.bancos ++ [bancoRegistrado san s input] ∧
    s'.tarjetas = s.tarjetas ∧
    s'.solicitudes = s.solicitudes ++ [solicitudRegistro s t] := by
  unfold registro_banco at h
  split at h
  · exact Except.noConfusion h
  · injection h with h
    subst h
    exact ⟨rfl, rfl, rfl, rfl⟩

theorem banco_nueva_tarjeta_ok {san : String → String} {s : DB} {bancoId : Nat}
    {input : TarjetaInput} {t : Nat} {s' : DB}
    (h : banco_nueva_tarjeta san s bancoId input t = .ok s') :
    s'.usuarios = s.usuarios ∧ s'.bancos = s.bancos ∧
    s'.tarjetas = s.tarjetas ++ [nuevaTarjeta san s bancoId input t] ∧
    s'.solicitudes = s.solicitudes ++
      [nuevaSolicitudTarjeta s bancoId s.nextTarjetaId t] := by
  unfold banco_nueva_tarjeta at h
  split at h
  · exact Except.noConfusion h
  · split at h
    · exact Except.noConfusion h
    · split at h
      · injection h with h
        subst h
        exact ⟨rfl, rfl, rfl, rfl⟩
      · exact Except.noConfusion h

theorem banco_editar_tarjeta_ok {san : String → String} {s : DB} {bancoId tarjetaId : Nat}
    {input : TarjetaInput} {t : Nat} {s' : DB}
    (h : banco_editar_tarjeta san s bancoId tarjetaId input t = .ok s') :
    s'.usuarios = s.usuarios ∧ s'.bancos = s.bancos ∧
    s'.tarjetas = s.tarjetas.map (fun tj =>
      if tj.id == tarjetaId && tj.banco_id == bancoId then editedTarjeta san input tj
      else tj) ∧
    s'.solicitudes = s.solicitudes ++ [nuevaSolicitudTarjeta s bancoId tarjetaId t] := by
  unfold banco_editar_tarjeta at h
  split at h
  · exact Except.noConfusion h
  · split at h
    · injection h with h
      subst h
      exact ⟨rfl, rfl, rfl, rfl⟩
    · exact Except.noConfusion h

theorem banco_eliminar_tarjeta_ok {s : DB} {bancoId tarjetaId : Nat} {s' : DB}
    (h : banco_eliminar_tarjeta s bancoId tarjetaId = .ok s') :
    s'.usuarios = s.usuarios ∧ s'.bancos = s.bancos ∧
    s'.tarjetas = s.tarjetas.filter (fun tj =>
      !(tj.id == tarjetaId && tj.banco_id == bancoId)) ∧
    s'.solicitudes = s.solicitudes := by
  unfold banco_eliminar_tarjeta at h
  split at h
  · exact Except.noConfusion h
  · injection h with h
    subst h
    exact ⟨rfl, rfl, rfl, rfl⟩

theorem aprobar_solicitud_ok {s : DB} {i t : Nat} {s' : DB}
    (h : aprobar_solicitud s i t = .ok s') :
    ∃ sol, s.solicitudes.find? (fun x => x.id == i) = some sol ∧
      s'.usuarios = s.usuarios ∧
      s'.solicitudes = s.solicitudes.map (marcaAprobada i t) ∧
      ((sol.tipo_solicitud = "banco" ∧
          s'.bancos = s.bancos.map (apruebaBanco sol.referencia_id t) ∧
          s'.tarjetas = s.tarjetas) ∨
        (sol.tipo_solicitud = "tarjeta" ∧ s'.bancos = s.bancos ∧
          s'.tarjetas = s.tarjetas.map (apruebaTarjeta sol.referencia_id t)) ∨
        (s'.bancos = s.bancos ∧ s'.tarjetas = s.tarjetas)) := by
  unfold aprobar_solicitud at h
  split at h
  · exact Except.noConfusion h
  · rename_i sol hfind
    refine ⟨sol, hfind, ?_⟩
    split at h
    · rename_i hb
      injection h with h
      subst h
      exact ⟨rfl, rfl, .inl ⟨by simpa using hb, rfl, rfl⟩⟩
    · split at h
      · rename_i ht
        injection h with h
        subst h
        exact ⟨rfl, rfl, .inr (.inl ⟨by simpa using ht, rfl, rfl⟩)⟩
      · injection h with h
        subst h
        exact ⟨rfl, rfl, .inr (.inr ⟨rfl, rfl⟩)⟩

theorem rechazar_solicitud_ok {san : String → String} {s : DB} {i t : Nat}
    {comentario : String} {s' : DB}
    (h : rechazar_solicitud san s i t comentario = .ok s') :
    s'.usuarios = s.usuarios ∧ s'.bancos = s.bancos ∧ s'.tarjetas = s.tarjetas ∧
    s'.solicitudes = s.solicitudes.map (marcaRechazada san i t comentario) := by
  unfold rechazar_solicitud at h
  split at h
  · exact Except.noConfusion h
  · injection h with h
    subst h
    exact ⟨rfl, rfl, rfl, rfl⟩

theorem approvedInv_step {san pwhash : String → String} {s s' : DB}
    (hs : StepP san pwhash s s') (ih : ApprovedCardHasApprovedRequest s) :
    ApprovedCardHasApprovedRequest s' := by
  unfold ApprovedCardHasApprovedRequest at ih ⊢
  cases hs with
  | registro input t s' h =>
    obtain ⟨-, -, htj, hsol⟩ := registro_banco_ok h
    intro tj htm ha
    rw [htj] at htm
    obtain ⟨sol, hm, hp⟩ := ih tj htm ha
    exact ⟨sol, by rw [hsol]; exact List.mem_append_left _ hm, hp⟩
  | nueva bancoId input t s' h =>
    obtain ⟨-, -, htj, hsol⟩ := banco_nueva_tarjeta_ok h
    intro tj htm ha
    rw [htj, List.mem_append] at htm
    rcases htm with htm | htm
    · obtain ⟨sol, hm, hp⟩ := ih tj htm ha
      exact ⟨sol, by rw [hsol]; exact List.mem_append_left _ hm, hp⟩
    · simp only [List.mem_singleton] at htm
      subst htm
      simp [nuevaTarjeta] at ha
  | editar bancoId tarjetaId input t s' h =>
    obtain ⟨-, -, htj, hsol⟩ := banco_editar_tarjeta_ok h
    intro tj htm ha
    rw [htj, List.mem_map] at htm
    obtain ⟨tj0, htm0, rfl⟩ := htm
    by_cases hc : (tj0.id == tarjetaId && tj0.banco_id == bancoId) = true
    · rw [if_pos hc] at ha
      simp [editedTarjeta] at ha
    · rw [if_neg hc] at ha ⊢
      obtain ⟨sol, hm, hp⟩ := ih tj0 htm0 ha
      exact ⟨sol, by rw [hsol]; exact List.mem_append_left _ hm, hp⟩
  | eliminar bancoId tarjetaId s' h =>
    obtain ⟨-, -, htj, hsol⟩ := banco_eliminar_tarjeta_ok h
    intro tj htm ha
    rw [htj] at htm
    obtain ⟨sol, hm, hp⟩ := ih tj (List.mem_of_mem_filter htm) ha
    exact ⟨sol, by rw [hsol]; exact hm, hp⟩
  | aprobar i t s' hp h =>
    obtain ⟨sol0, hfind, -, hsol, hcase⟩ := aprobar_solicitud_ok h
    have hsol0mem : sol0 ∈ s.solicitudes := List.mem_of_find?_eq_some hfind
    have hsol0id : sol0.id = i := by simpa using List.find?_some hfind
    intro tj htm ha
    have survives : ∀ w ∈ s.solicitudes, w.estado = "aprobada" →
        marcaAprobada i t w = w := by
      intro w hw hwe
      have hwid : ¬ w.id = i := fun hwi => by
        have := hp w hw hwi
        rw [hwe] at this
        exact absurd this (by decide)
      unfold marcaAprobada
      rw [if_neg (by simpa using hwid)]
    rcases hcase with ⟨htipo, hb, htj⟩ | ⟨htipo, hb, htj⟩ | ⟨hb, htj⟩
    · rw [htj] at htm
      obtain ⟨sol, hm, hp1, hp2, hp3⟩ := ih tj htm ha
      refine ⟨sol, ?_, hp1, hp2, hp3⟩
      rw [hsol]
      rw [← survives sol hm hp3]
      exact List.mem_map_of_mem _ hm
    · rw [htj, List.mem_map] at htm
      obtain ⟨tj0, htm0, rfl⟩ := htm
      by_cases hc : (tj0.id == sol0.referencia_id) = true
      · have hmarca : marcaAprobada i t sol0 =
            { sol0 with estado := "aprobada", fecha_respuesta := some t } := by
          unfold marcaAprobada
          rw [if_pos (by simpa using hsol0id)]
        refine ⟨marcaAprobada i t sol0, ?_, ?_, ?_, ?_⟩
        · rw [hsol]
          exact List.mem_map_of_mem _ hsol0mem
        · rw [hmarca]
          exact htipo
        · rw [hmarca]
          show sol0.referencia_id = (apruebaTarjeta sol0.referencia_id t tj0).id
          unfold apruebaTarjeta
          rw [if_pos hc]
          exact (show tj0.id = sol0.referencia_id by simpa using hc).symm
        · rw [hmarca]
      · unfold apruebaTarjeta at ha ⊢
        rw [if_neg hc] at ha ⊢
        obtain ⟨sol, hm, hp1, hp2, hp3⟩ := ih tj0 htm0 ha
        refine ⟨sol, ?_, hp1, hp2, hp3⟩
        rw [hsol, ← survives sol hm hp3]
        exact List.mem_map_of_mem _ hm
    · rw [htj] at htm
      obtain ⟨sol, hm, hp1, hp2, hp3⟩ := ih tj htm ha
      refine ⟨sol, ?_, hp1, hp2, hp3⟩
      rw [hsol, ← survives sol hm hp3]
      exact List.mem_map_of_mem _ hm
  | rechazar i t comentario s' hp h =>
    obtain ⟨-, -, htj, hsol⟩ := rechazar_solicitud_ok h
    intro tj htm ha
    rw [htj] at htm
    obtain ⟨sol, hm, hp1, hp2, hp3⟩ := ih tj htm ha
    have hwid : ¬ sol.id = i := fun hwi => by
      have := hp sol hm hwi
      rw [hp3] at this
      exact absurd this (by decide)
    refine ⟨sol, ?_, hp1, hp2, hp3⟩
    rw [hsol]
    have : marcaRechazada san i t comentario sol = sol := by
      unfold marcaRechazada
      rw [if_neg (by simpa using hwid)]
    rw [← this]
    exact List.mem_map_of_mem _ hm

theorem approvedInv_reachable {san pwhash : String → String} {s : DB}
    (hr : ReachableP san pwhash s) : ApprovedCardHasApprovedRequest s := by
  induction hr with
  | init =>
    intro tj htm
    simp [initDB] at htm
  | step hr hs ih => exact approvedInv_step hs ih

theorem usuariosInv_step {san pwhash : String → String} {s s' : DB}
    (hs : Step san pwhash s s') (ih : SoloAdminSembrado pwhash s) :
    SoloAdminSembrado pwhash s' := by
  unfold SoloAdminSembrado at ih ⊢
  cases hs with
  | registro input t s' h =>
    obtain ⟨hu, -, -, -⟩ := registro_banco_ok h
    intro u hm ht
    rw [hu, List.mem_append] at hm
    rcases hm with hm | hm
    · exact ih u hm ht
    · simp only [List.mem_singleton] at hm
      subst hm
      exact absurd ht (by simp [usuarioRegistrado])
  | nueva bancoId input t s' h =>
    obtain ⟨hu, -, -, -⟩ := banco_nueva_tarjeta_ok h
    rw [hu]
    exact ih
  | editar bancoId tarjetaId input t s' h =>
    obtain ⟨hu, -, -, -⟩ := banco_editar_tarjeta_ok h
    rw [hu]
    exact ih
  | eliminar bancoId tarjetaId s' h =>
    obtain ⟨hu, -, -, -⟩ := banco_eliminar_tarjeta_ok h
    rw [hu]
    exact ih
  | aprobar i t s' h =>
    obtain ⟨sol, -, hu, -, -⟩ := aprobar_solicitud_ok h
    rw [hu]
    exact ih
  | rechazar i t comentario s' h =>
    obtain ⟨hu, -, -, -⟩ := rechazar_solicitud_ok h
    rw [hu]
    exact ih

theorem soloAdmin_reachable {san pwhash : String → String} {s : DB}
    (hr : Reachable san pwhash s) : SoloAdminSembrado pwhash s := by
  induction hr with
  | init => exact fun u hm _ => hm
  | step hr hs ih => exact usuariosInv_step hs ih

theorem step_of_stepP {san pwhash : String → String} {s s' : DB}
    (h : StepP san pwhash s s') : Step san pwhash s s' := by
  cases h with
  | registro input t s' h => exact .registro _ input t s' h
  | nueva bancoId input t s' h => exact .nueva _ bancoId input t s' h
  | editar bancoId tarjetaId input t s' h => exact .editar _ bancoId tarjetaId input t s' h
  | eliminar bancoId tarjetaId s' h => exact .eliminar _ bancoId tarjetaId s' h
  | aprobar i t s' hp h => exact .aprobar _ i t s' h
  | rechazar i t comentario s' hp h => exact .rechazar _ i t comentario s' h

theorem reachable_of_reachableP {san pwhash : String → String} {s : DB}
    (h : ReachableP san pwhash s) : Reachable san pwhash s := by
  induction h with
  | init => exact .init
  | step hr hs ih => exact .step ih (step_of_stepP hs)

theorem reachP_dbS1 : ReachableP id id dbS1 :=
  .step .init (.registro dbInit regInput0 0 dbS1 rfl)

theorem reachP_dbS2 : ReachableP id id dbS2 :=
  .step reachP_dbS1 (.aprobar dbS1 1 1 dbS2 (by decide) rfl)

theorem reachP_dbS3 : ReachableP id id dbS3 :=
  .step reachP_dbS2 (.nueva dbS2 1 tarInput0 2 dbS3 rfl)

theorem reachP_dbS4 : ReachableP id id dbS4 :=
  .step reachP_dbS3 (.editar dbS3 1 1 tarInput1 3 dbS4 rfl)

theorem reachP_dbS5 : ReachableP id id dbS5 :=
  .step reachP_dbS4 (.aprobar dbS4 2 4 dbS5 (by decide) rfl)

theorem reach_dbS1 : Reachable id id dbS1 := reachable_of_reachableP reachP_dbS1

theorem reach_dbS5 : Reachable id id dbS5 := reachable_of_reachableP reachP_dbS5

theorem reach_dbR2 : Reachable id id dbR2 :=
  .step reach_dbS1 (.rechazar dbS1 1 1 "no" dbR2 rfl)

/-- C1 (amended): in every state reachable by the workflow operations with
resolutions applied only to pending requests, a Card's `aprobada` flag is true
only if at least one card-request `Solicitud` referencing it is in status
"aprobada".  (The claimed iff with the *most recent* card-request, and the
unrestricted reachability, both fail on the code; see the counterexample.) -/
theorem c1_approved_card_has_approved_request (san pwhash : String → String) (s : DB)
    (hr : ReachableP san pwhash s) : ApprovedCardHasApprovedRequest s :=
  approvedInv_reachable hr

theorem c1_approved_card_has_approved_request_witness :
    ReachableP id id dbS5 ∧ ApprovedCardHasApprovedRequest dbS5 :=
  ⟨reachP_dbS5, c1_approved_card_has_approved_request id id dbS5 reachP_dbS5⟩

/-- C1 counterexample: `dbS5` is reachable by the workflow operations
(register, approve the institution, create a card, edit it, approve the
*older* of the two pending card-requests), yet the claimed invariant fails
there: card 1 has `aprobada = true` while its most recent card-request
(id 3, created by the edit) is still "pendiente". -/
theorem c1_claimed_invariant_fails :
    Reachable id id dbS5 ∧ checkCardInvariant dbS5 = false :=
  ⟨reach_dbS5, by decide⟩

/-- C2: the claim that a resolved Request's status, response timestamp and
comment never change again is violated by the code: `aprobar_solicitud` has no
pending-status guard, so approving the already-rejected request 1 of the
reachable state `dbR2` overwrites its status "rechazada" with "aprobada",
re-stamps its response time, and even approves the bank downstream. -/
theorem c2_resolved_request_overwritten :
    Reachable id id dbR2 ∧
    dbR2.solicitudes.map (fun x => (x.estado, x.fecha_respuesta)) =
      [("rechazada", some 1)] ∧
    aprobar_solicitud dbR2 1 2 = .ok dbR3 ∧
    dbR3.solicitudes.map (fun x => (x.estado, x.fecha_respuesta)) =
      [("aprobada", some 2)] ∧
    dbR3.bancos.map (fun b => b.aprobado) = [true] :=
  ⟨reach_dbR2, by decide, rfl, by decide, by decide⟩

/-- C10: in every reachable state, any identity that passes the
`admin_required` gate is one of the identities seeded at initialisation —
registration only ever creates identities with role "banco". -/
theorem c10_only_seeded_admin (san pwhash : String → String) (s : DB) (uid : Nat)
    (hr : Reachable san pwhash s) (hg : admin_required s uid = true) :
    ∃ u, s.usuarios.find? (fun x => x.id == uid) = some u ∧ u.tipo = "admin" ∧
      u ∈ (initDB pwhash).usuarios := by
  unfold admin_required at hg
  split at hg
  · rename_i u hfind
    have ht : u.tipo = "admin" := by simpa using hg
    exact ⟨u, hfind, ht, soloAdmin_reachable hr u (List.mem_of_find?_eq_some hfind) ht⟩
  · exact absurd hg (by simp)

theorem c10_only_seeded_admin_witness :
    Reachable id id dbS1 ∧ admin_required dbS1 1 = true ∧
    (∃ u, dbS1.usuarios.find? (fun x => x.id == 1) = some u ∧ u.tipo = "admin" ∧
      u ∈ (initDB id).usuarios) :=
  ⟨reach_dbS1, by decide, c10_only_seeded_admin id id dbS1 1 reach_dbS1 (by decide)⟩

/-- C3: for an existing Card owned by the calling institution and valid input,
the edit overwrites every mutable field, forces `aprobada := false` regardless
of its prior value, and appends one brand-new pending card-request, leaving all
prior requests (pending ones included) exactly as they were. -/
theorem c3_edit_overwrites_and_requeues (san : String → String) (s : DB)
    (bancoId tarjetaId : Nat) (input : TarjetaInput) (t : Nat) (tj0 : Tarjeta)
    (hfind : s.tarjetas.find? (fun tj => tj.id == tarjetaId && tj.banco_id == bancoId) =
      some tj0)
    (hval : validTarjetaInput input = true) :
    banco_editar_tarjeta san s bancoId tarjetaId input t =
      .ok (editResultado san s bancoId tarjetaId input t) ∧
    (editResultado san s bancoId tarjetaId input t).solicitudes =
      s.solicitudes ++ [nuevaSolicitudTarjeta s bancoId tarjetaId t] ∧
    (editedTarjeta san input tj0).aprobada = false ∧
    (editedTarjeta san input tj0).nombre = san input.nombre ∧
    (editedTarjeta san input tj0).tipo = input.tipo ∧
    (editedTarjeta san input tj0).cat = input.cat ∧
    (editedTarjeta san input tj0).anualidad = input.anualidad ∧
    (editedTarjeta san input tj0).edad_minima = input.edad_minima ∧
    (editedTarjeta san input tj0).beneficios = san input.beneficios ∧
    (editedTarjeta san input tj0).imagen_url = san input.imagen_url ∧
    (nuevaSolicitudTarjeta s bancoId tarjetaId t).estado = "pendiente" ∧
    (nuevaSolicitudTarjeta s bancoId tarjetaId t).tipo_solicitud = "tarjeta" ∧
    (nuevaSolicitudTarjeta s bancoId tarjetaId t).referencia_id = tarjetaId := by
  refine ⟨?_, rfl, rfl, rfl, rfl, rfl, rfl, rfl, rfl, rfl, rfl, rfl, rfl⟩
  unfold banco_editar_tarjeta
  simp only [hfind, hval, if_true]

theorem c3_edit_overwrites_and_requeues_witness :
    (dbS3.tarjetas.find? (fun tj => tj.id == 1 && tj.banco_id == 1) = some tarjetaW3 ∧
      validTarjetaInput tarInput1 = true) ∧
    (banco_editar_tarjeta id dbS3 1 1 tarInput1 3 = .ok (editResultado id dbS3 1 1 tarInput1 3) ∧
      (editResultado id dbS3 1 1 tarInput1 3).solicitudes =
        dbS3.solicitudes ++ [nuevaSolicitudTarjeta dbS3 1 1 3] ∧
      (editedTarjeta id tarInput1 tarjetaW3).aprobada = false ∧
      (editedTarjeta id tarInput1 tarjetaW3).nombre = id tarInput1.nombre ∧
      (editedTarjeta id tarInput1 tarjetaW3).tipo = tarInput1.tipo ∧
      (editedTarjeta id tarInput1 tarjetaW3).cat = tarInput1.cat ∧
      (editedTarjeta id tarInput1 tarjetaW3).anualidad = tarInput1.anualidad ∧
      (editedTarjeta id tarInput1 tarjetaW3).edad_minima = tarInput1.edad_minima ∧
      (editedTarjeta id tarInput1 tarjetaW3).beneficios = id tarInput1.beneficios ∧
      (editedTarjeta id tarInput1 tarjetaW3).imagen_url = id tarInput1.imagen_url ∧
      (nuevaSolicitudTarjeta dbS3 1 1 3).estado = "pendiente" ∧
      (nuevaSolicitudTarjeta dbS3 1 1 3).tipo_solicitud = "tarjeta" ∧
      (nuevaSolicitudTarjeta dbS3 1 1 3).referencia_id = 1) :=
  ⟨⟨by decide, by decide⟩,
    c3_edit_overwrites_and_requeues id dbS3 1 1 tarInput1 3 tarjetaW3
      (by decide) (by decide)⟩

/-- C4: card creation by an institution whose bank exists: if the bank is not
approved the call fails with `notApproved` (so nothing is committed); if the
bank is approved and the input is valid, exactly one unapproved Card and
exactly one pending card-request referencing it are inserted, in one commit. -/
theorem c4_card_creation_gated (san : String → String) (s : DB) (bancoId : Nat)
    (input : TarjetaInput) (t : Nat) (b : Banco)
    (hfind : s.bancos.find? (fun x => x.id == bancoId) = some b) :
    (b.aprobado = false → banco_nueva_tarjeta san s bancoId input t = .error .notApproved) ∧
    (b.aprobado = true → validTarjetaInput input = true →
      banco_nueva_tarjeta san s bancoId input t = .ok (nuevaResultado san s bancoId input t) ∧
      (nuevaResultado san s bancoId input t).tarjetas =
        s.tarjetas ++ [nuevaTarjeta san s bancoId input t] ∧
      (nuevaResultado san s bancoId input t).solicitudes =
        s.solicitudes ++ [nuevaSolicitudTarjeta s bancoId s.nextTarjetaId t] ∧
      (nuevaTarjeta san s bancoId input t).aprobada = false ∧
      (nuevaSolicitudTarjeta s bancoId s.nextTarjetaId t).estado = "pendiente" ∧
      (nuevaSolicitudTarjeta s bancoId s.nextTarjetaId t).tipo_solicitud = "tarjeta" ∧
      (nuevaSolicitudTarjeta s bancoId s.nextTarjetaId t).referencia_id =
        (nuevaTarjeta san s bancoId input t).id) := by
  constructor
  · intro hap
    unfold banco_nueva_tarjeta
    simp only [hfind, hap, Bool.not_false, if_true]
  · intro hap hval
    refine ⟨?_, rfl, rfl, rfl, rfl, rfl, rfl⟩
    unfold banco_nueva_tarjeta
    simp only [hfind, hap, Bool.not_true, hval, if_true, if_false]
    rfl

theorem c4_card_creation_gated_witness :
    (dbS1.bancos.find? (fun x => x.id == 1) = some bancoW1 ∧ bancoW1.aprobado = false ∧
      banco_nueva_tarjeta id dbS1 1 tarInput0 2 = .error .notApproved) ∧
    (dbS2.bancos.find? (fun x => x.id == 1) = some bancoW2 ∧ bancoW2.aprobado = true ∧
      validTarjetaInput tarInput0 = true ∧
      (banco_nueva_tarjeta id dbS2 1 tarInput0 2 = .ok (nuevaResultado id dbS2 1 tarInput0 2) ∧
        (nuevaResultado id dbS2 1 tarInput0 2).tarjetas =
          dbS2.tarjetas ++ [nuevaTarjeta id dbS2 1 tarInput0 2] ∧
        (nuevaResultado id dbS2 1 tarInput0 2).solicitudes =
          dbS2.solicitudes ++ [nuevaSolicitudTarjeta dbS2 1 dbS2.nextTarjetaId 2] ∧
        (nuevaTarjeta id dbS2 1 tarInput0 2).aprobada = false ∧
        (nuevaSolicitudTarjeta dbS2 1 dbS2.nextTarjetaId 2).estado = "pendiente" ∧
        (nuevaSolicitudTarjeta dbS2 1 dbS2.nextTarjetaId 2).tipo_solicitud = "tarjeta" ∧
        (nuevaSolicitudTarjeta dbS2 1 dbS2.nextTarjetaId 2).referencia_id =
          (nuevaTarjeta id dbS2 1 tarInput0 2).id)) :=
  ⟨⟨by decide, by decide,
      (c4_card_creation_gated id dbS1 1 tarInput0 2 bancoW1 (by decide)).1 (by decide)⟩,
    ⟨by decide, by decide, by decide,
      (c4_card_creation_gated id dbS2 1 tarInput0 2 bancoW2 (by decide)).2
        (by decide) (by decide)⟩⟩

/-- C5: for any applicant age in [18,100] and category, the filtered search
returns exactly the cards with `aprobada = true`, the requested category, and
`edad_minima ≤ edad`; in particular no unapproved card is ever returned. -/
theorem c5_buscar_exact_filter (s : DB) (edad : Nat) (tipo : String)
    (h1 : 18 ≤ edad) (h2 : edad ≤ 100) (tj : Tarjeta) :
    tj ∈ buscar s edad tipo ↔
      tj ∈ s.tarjetas ∧ tj.aprobada = true ∧ tj.tipo = tipo ∧ tj.edad_minima ≤ edad := by
  unfold buscar
  rw [List.mem_filter]
  constructor
  · rintro ⟨hm, hc⟩
    simp only [Bool.and_eq_true, decide_eq_true_eq, beq_iff_eq] at hc
    exact ⟨hm, hc.2, hc.1.2, hc.1.1⟩
  · rintro ⟨hm, ha, htp, he⟩
    refine ⟨hm, ?_⟩
    simp only [Bool.and_eq_true, decide_eq_true_eq, beq_iff_eq]
    exact ⟨⟨he, htp⟩, ha⟩

theorem c5_buscar_exact_filter_witness :
    18 ≤ 21 ∧ 21 ≤ 100 ∧
    (tarjetaW5 ∈ buscar dbS5 21 "joven" ↔
      tarjetaW5 ∈ dbS5.tarjetas ∧ tarjetaW5.aprobada = true ∧
        tarjetaW5.tipo = "joven" ∧ tarjetaW5.edad_minima ≤ 21) :=
  ⟨by decide, by decide, c5_buscar_exact_filter dbS5 21 "joven" (by decide) (by decide) tarjetaW5⟩

/-- C6: a registration attempt whose email already belongs to an existing
identity fails with the duplicate-email error; the error return models the
route redirecting without committing, so no Identity, Institution or Request
row is inserted and the pre-existing state is unchanged. -/
theorem c6_duplicate_email_rejected (san pwhash : String → String) (s : DB)
    (input : RegistroInput) (t : Nat)
    (h : ∃ u ∈ s.usuarios, u.email = input.email) :
    registro_banco san pwhash s input t = .error .duplicateEmail := by
  obtain ⟨u, hm, he⟩ := h
  have hany : s.usuarios.any (fun u => u.email == input.email) = true :=
    List.any_eq_true.mpr ⟨u, hm, by simpa using he⟩
  unfold registro_banco
  simp only [hany, if_true]

theorem c6_duplicate_email_rejected_witness :
    (∃ u ∈ dbS1.usuarios, u.email = regInput0.email) ∧
    registro_banco id id dbS1 regInput0 9 = .error .duplicateEmail :=
  ⟨by decide, c6_duplicate_email_rejected id id dbS1 regInput0 9 (by decide)⟩

/-- C7: approving a pending request whose subject (bank or card) no longer
exists still marks the request "aprobada" and stamps its response time, but
leaves the bank and card tables exactly as they were — a silent no-op on the
subject, not an error. -/
theorem c7_missing_subject_silent_noop (s : DB) (i t : Nat) (sol : Solicitud)
    (hfind : s.solicitudes.find? (fun x => x.id == i) = some sol)
    (hb : sol.tipo_solicitud = "banco" → ∀ b ∈ s.bancos, b.id ≠ sol.referencia_id)
    (htj : sol.tipo_solicitud = "tarjeta" → ∀ tj ∈ s.tarjetas, tj.id ≠ sol.referencia_id) :
    ∃ s', aprobar_solicitud s i t = .ok s' ∧
      s'.bancos = s.bancos ∧ s'.tarjetas = s.tarjetas ∧
      s'.solicitudes = s.solicitudes.map (marcaAprobada i t) ∧
      marcaAprobada i t sol ∈ s'.solicitudes ∧
      (marcaAprobada i t sol).estado = "aprobada" ∧
      (marcaAprobada i t sol).fecha_respuesta = some t := by
  have hid : (sol.id == i) = true := by simpa using List.find?_some hfind
  have hmem : sol ∈ s.solicitudes := List.mem_of_find?_eq_some hfind
  have hmarca : marcaAprobada i t sol =
      { sol with estado := "aprobada", fecha_respuesta := some t } := by
    unfold marcaAprobada
    rw [if_pos hid]
  by_cases hcb : (sol.tipo_solicitud == "banco") = true
  · refine ⟨{ s with
        solicitudes := s.solicitudes.map (marcaAprobada i t),
        bancos := s.bancos.map (apruebaBanco sol.referencia_id t) },
      ?_, ?_, rfl, rfl, List.mem_map_of_mem _ hmem, by rw [hmarca], by rw [hmarca]⟩
    · unfold aprobar_solicitud
      simp only [hfind, hcb, if_true]
    · exact listMapSelf (fun b hbm => by
        unfold apruebaBanco
        rw [if_neg]
        simp only [beq_iff_eq]
        exact hb (by simpa using hcb) b hbm)
  · by_cases hct : (sol.tipo_solicitud == "tarjeta") = true
    · refine ⟨{ s with
          solicitudes := s.solicitudes.map (marcaAprobada i t),
          tarjetas := s.tarjetas.map (apruebaTarjeta sol.referencia_id t) },
        ?_, rfl, ?_, rfl, List.mem_map_of_mem _ hmem, by rw [hmarca], by rw [hmarca]⟩
      · unfold aprobar_solicitud
        simp only [hfind]
        rw [if_neg hcb, if_pos hct]
      · exact listMapSelf (fun tj htm => by
          unfold apruebaTarjeta
          rw [if_neg]
          simp only [beq_iff_eq]
          exact htj (by simpa using hct) tj htm)
    · refine ⟨{ s with solicitudes := s.solicitudes.map (marcaAprobada i t) },
        ?_, rfl, rfl, rfl, List.mem_map_of_mem _ hmem, by rw [hmarca], by rw [hmarca]⟩
      unfold aprobar_solicitud
      simp only [hfind]
      rw [if_neg hcb, if_neg hct]

theorem c7_missing_subject_silent_noop_witness :
    (dbS6.solicitudes.find? (fun x => x.id == 2) = some solW2 ∧
      (solW2.tipo_solicitud = "banco" → ∀ b ∈ dbS6.bancos, b.id ≠ solW2.referencia_id) ∧
      (solW2.tipo_solicitud = "tarjeta" → ∀ tj ∈ dbS6.tarjetas, tj.id ≠ solW2.referencia_id)) ∧
    (∃ s', aprobar_solicitud dbS6 2 5 = .ok s' ∧
      s'.bancos = dbS6.bancos ∧ s'.tarjetas = dbS6.tarjetas ∧
      s'.solicitudes = dbS6.solicitudes.map (marcaAprobada 2 5) ∧
      marcaAprobada 2 5 solW2 ∈ s'.solicitudes ∧
      (marcaAprobada 2 5 solW2).estado = "aprobada" ∧
      (marcaAprobada 2 5 solW2).fecha_respuesta = some 5) :=
  ⟨⟨by decide, by decide, by decide⟩,
    c7_missing_subject_silent_noop dbS6 2 5 solW2 (by decide) (by decide) (by decide)⟩

/-- C8 (amended): deleting an institution never deletes a `Solicitud` row.
If any request references the bank, the flush violates the NOT NULL
constraint on `Solicitud.banco_id` and the delete fails with an integrity
error, removing nothing; only a bank with no requests can be deleted, and
then its cards are cascade-deleted while the request table is untouched. -/
theorem c8_delete_institution_blocked_by_requests (s : DB) (bancoId : Nat) :
    ((∃ sol ∈ s.solicitudes, sol.banco_id = bancoId) →
      eliminar_banco s bancoId = .error .integrityError) ∧
    ((∀ sol ∈ s.solicitudes, sol.banco_id ≠ bancoId) →
      ∃ s', eliminar_banco s bancoId = .ok s' ∧
        (∀ b ∈ s'.bancos, b.id ≠ bancoId) ∧
        (∀ tj ∈ s'.tarjetas, tj.banco_id ≠ bancoId) ∧
        s'.solicitudes = s.solicitudes) := by
  constructor
  · rintro ⟨sol, hm, he⟩
    have hany : s.solicitudes.any (fun sol => sol.banco_id == bancoId) = true :=
      List.any_eq_true.mpr ⟨sol, hm, by simpa using he⟩
    unfold eliminar_banco
    simp only [hany, if_true]
  · intro hno
    have hany : s.solicitudes.any (fun sol => sol.banco_id == bancoId) = false := by
      rw [← Bool.not_eq_true, List.any_eq_true]
      rintro ⟨sol, hm, he⟩
      exact hno sol hm (by simpa using he)
    refine ⟨{ s with
        bancos := s.bancos.filter (fun b => !(b.id == bancoId)),
        tarjetas := s.tarjetas.filter (fun tj => !(tj.banco_id == bancoId)) },
      ?_, fun b hb => ?_, fun tj htm => ?_, rfl⟩
    · unfold eliminar_banco
      simp only [hany, if_false]
      rfl
    · simpa using (List.mem_filter.mp hb).2
    · simpa using (List.mem_filter.mp htm).2

theorem c8_delete_institution_blocked_by_requests_witness :
    ((∃ sol ∈ dbS1.solicitudes, sol.banco_id = 1) ∧
      eliminar_banco dbS1 1 = .error .integrityError) ∧
    ((∀ sol ∈ dbS1.solicitudes, sol.banco_id ≠ 99) ∧
      ∃ s', eliminar_banco dbS1 99 = .ok s' ∧
        (∀ b ∈ s'.bancos, b.id ≠ 99) ∧
        (∀ tj ∈ s'.tarjetas, tj.banco_id ≠ 99) ∧
        s'.solicitudes = dbS1.solicitudes) :=
  ⟨⟨by decide, (c8_delete_institution_blocked_by_requests dbS1 1).1 (by decide)⟩,
    ⟨by decide, (c8_delete_institution_blocked_by_requests dbS1 99).2 (by decide)⟩⟩

/-- C8 counterexample: in the reachable state `dbS1` the registered bank 1 is
referenced by its institution-request, so deleting it fails with an integrity
error and removes nothing — the claim that deleting an Institution removes its
Cards and all Requests targeting it, leaving zero orphan rows, does not hold
at this input (nothing at all is removed, and the request row survives in the
unchanged state). -/
theorem c8_cascade_claim_fails :
    Reachable id id dbS1 ∧
    (∃ sol ∈ dbS1.solicitudes, sol.banco_id = 1) ∧
    (∃ b ∈ dbS1.bancos, b.id = 1) ∧
    eliminar_banco dbS1 1 = .error .integrityError :=
  ⟨reach_dbS1, by decide, by decide, rfl⟩

/-- C9: deleting a card does not touch the request table: a pending
card-request for the deleted card stays pending, is still returned by the
pending-requests listing, and approving it afterwards marks it "aprobada"
while leaving the (card-less) card table unchanged. -/
theorem c9_delete_card_preserves_requests (s : DB) (bancoId tarjetaId solId t : Nat)
    (tj0 : Tarjeta) (sol0 : Solicitud)
    (hct : s.tarjetas.find? (fun tj => tj.id == tarjetaId && tj.banco_id == bancoId) =
      some tj0)
    (hsol : s.solicitudes.find? (fun x => x.id == solId) = some sol0)
    (htipo : sol0.tipo_solicitud = "tarjeta") (href : sol0.referencia_id = tarjetaId)
    (hpend : sol0.estado = "pendiente")
    (huniq : ∀ tj ∈ s.tarjetas, tj.id = tarjetaId → tj.banco_id = bancoId) :
    ∃ s', banco_eliminar_tarjeta s bancoId tarjetaId = .ok s' ∧
      s'.solicitudes = s.solicitudes ∧
      sol0 ∈ admin_solicitudes s' ∧
      ∃ s2, aprobar_solicitud s' solId t = .ok s2 ∧
        s2.tarjetas = s'.tarjetas ∧
        s2.solicitudes = s'.solicitudes.map (marcaAprobada solId t) ∧
        (marcaAprobada solId t sol0).estado = "aprobada" ∧
        marcaAprobada solId t sol0 ∈ s2.solicitudes := by
  have hsolid : (sol0.id == solId) = true := by simpa using List.find?_some hsol
  have hsmem : sol0 ∈ s.solicitudes := List.mem_of_find?_eq_some hsol
  have hmarca : marcaAprobada solId t sol0 =
      { sol0 with estado := "aprobada", fecha_respuesta := some t } := by
    unfold marcaAprobada
    rw [if_pos hsolid]
  have hnomatch : ∀ tj ∈ s.tarjetas.filter (fun tj =>
      !(tj.id == tarjetaId && tj.banco_id == bancoId)), tj.id ≠ sol0.referencia_id := by
    intro tj htm
    have hmem := List.mem_filter.mp htm
    rw [href]
    intro hid
    have hbanco := huniq tj hmem.1 hid
    have hcond := hmem.2
    simp [hid, hbanco] at hcond
  have hmapid : (s.tarjetas.filter (fun tj =>
      !(tj.id == tarjetaId && tj.banco_id == bancoId))).map
        (apruebaTarjeta sol0.referencia_id t) =
      s.tarjetas.filter (fun tj => !(tj.id == tarjetaId && tj.banco_id == bancoId)) :=
    listMapSelf (fun tj htm => by
      unfold apruebaTarjeta
      rw [if_neg]
      simp only [beq_iff_eq]
      exact hnomatch tj htm)
  refine ⟨{ s with
      tarjetas := s.tarjetas.filter (fun tj =>
        !(tj.id == tarjetaId && tj.banco_id == bancoId)) }, ?_, rfl, ?_, ?_⟩
  · unfold banco_eliminar_tarjeta
    simp only [hct]
  · unfold admin_solicitudes
    rw [List.mem_mergeSort]
    exact List.mem_filter.mpr ⟨hsmem, by simp [hpend]⟩
  · refine ⟨{ s with
        tarjetas := (s.tarjetas.filter (fun tj =>
          !(tj.id == tarjetaId && tj.banco_id == bancoId))).map
            (apruebaTarjeta sol0.referencia_id t),
        solicitudes := s.solicitudes.map (marcaAprobada solId t) },
      ?_, hmapid, rfl, by rw [hmarca], List.mem_map_of_mem _ hsmem⟩
    unfold aprobar_solicitud
    simp only [hsol]
    rw [if_neg (by simp [htipo]), if_pos (by simp [htipo])]

theorem c9_delete_card_preserves_requests_witness :
    (dbS4.tarjetas.find? (fun tj => tj.id == 1 && tj.banco_id == 1) = some tarjetaW4 ∧
      dbS4.solicitudes.find? (fun x => x.id == 3) = some solW3 ∧
      solW3.tipo_solicitud = "tarjeta" ∧ solW3.referencia_id = 1 ∧
      solW3.estado = "pendiente" ∧
      (∀ tj ∈ dbS4.tarjetas, tj.id = 1 → tj.banco_id = 1)) ∧
    (∃ s', banco_eliminar_tarjeta dbS4 1 1 = .ok s' ∧
      s'.solicitudes = dbS4.solicitudes ∧
      solW3 ∈ admin_solicitudes s' ∧
      ∃ s2, aprobar_solicitud s' 3 6 = .ok s2 ∧
        s2.tarjetas = s'.tarjetas ∧
        s2.solicitudes = s'.solicitudes.map (marcaAprobada 3 6) ∧
        (marcaAprobada 3 6 solW3).estado = "aprobada" ∧
        marcaAprobada 3 6 solW3 ∈ s2.solicitudes) :=
  ⟨⟨by decide, by decide, by decide, by decide, by decide, by decide⟩,
    c9_delete_card_preserves_requests dbS4 1 1 3 6 tarjetaW4 solW3
      (by decide) (by decide) (by decide) (by decide) (by decide) (by decide)⟩
